import Mathlib

/-!
# Verification of the audio_transcriber capture and transcription pipeline

A shallow embedding of the Python sources of `audio_transcriber`
(`src/audio/recorder.py`, `src/audio/transcription.py`,
`src/utils/device_utils.py`) together with theorems settling the
specification claims about them.

Modelling conventions:
* `float32` sample values are modelled as rationals (`ℚ`); the float
  rounding of the single multiplication `x * 32767` is ignored.
* A `Frame` is one multi-channel sample as delivered by the driver
  (one row of the numpy `indata` array); a `Block` is the array one
  callback invocation delivers (`indata.copy()`).
* Python methods that can raise are modelled as `Except`-valued
  functions; the `Except` error constructors name the error kinds of
  the specification vocabulary so that claims of the form "fails with
  X" can be stated and, where the code never produces them, refuted.
* Methods that read state without assigning any attribute are modelled
  as pure functions of the state.
-/

namespace AudioTranscriber

/-- One interleaved multi-channel sample (one row of the numpy array). -/
abbrev Frame := List ℚ

/-- One chunk of frames delivered by a single callback invocation. -/
abbrev Block := List Frame

/-- Mirror of the `AudioConfig` dataclass (fields relevant to the claims;
`dtype`, `device` and `latency` are opaque strings/handles with no role in
any claim). -/
structure AudioConfig where
  sample_rate : Nat := 44100
  channels : Nat := 1
  blocksize : Nat := 1024
deriving DecidableEq

/-- The mutable attributes of `AudioRecorder` consulted by the claims:
`self.recording`, `self.paused`, `self._audio_buffer`, and whether
`self.stream` is a live stream object. -/
structure RecorderState where
  config : AudioConfig := {}
  recording : Bool := false
  paused : Bool := false
  stream_open : Bool := false
  audio_buffer : List Block := []
deriving DecidableEq

/-- The state `AudioRecorder.__init__` establishes. -/
def initRecorder : RecorderState := {}

/-- Error kinds that `AudioRecorder` methods can surface (as raised
exceptions) plus the `AlreadyRecording` kind the specification names, so
that its absence from the code is expressible. -/
inductive RecError
  | alreadyRecording
  | streamError
  | valueError
deriving DecidableEq

/-- Truncation toward zero, the behaviour of a numpy C-style cast of a
float to an integer type (for values within range). -/
def truncToInt (q : ℚ) : ℤ :=
  if 0 ≤ q then ⌊q⌋ else ⌈q⌉

/-- The sample conversion in `save_recording`:
`audio_int16 = np.int16(audio_data * 32767)`.  For `x ∈ [-1, 1]` the
scaled value lies in `[-32767, 32767]`, inside the int16 range, so the
cast is plain truncation (out-of-range casts would be platform-dependent
in numpy, but no claim reaches them). -/
def float_to_int16 (x : ℚ) : ℤ := truncToInt (x * 32767)

/-- The conversion in the words of the specification: scale to the signed
16-bit range and clip at the boundary.  Used only to compare against
`float_to_int16`. -/
def spec_scale_clip (x : ℚ) : ℤ :=
  max (-32768) (min 32767 (truncToInt (x * 32767)))

theorem float_to_int16_bounds (x : ℚ) (h1 : -1 ≤ x) (h2 : x ≤ 1) :
    |((float_to_int16 x : ℤ) : ℚ) - x * 32767| ≤ 1 ∧
      -32768 ≤ float_to_int16 x ∧ float_to_int16 x ≤ 32767 := by
  unfold float_to_int16 truncToInt
  have hylb : (-32767 : ℚ) ≤ x * 32767 := by nlinarith
  have hyub : x * 32767 ≤ 32767 := by nlinarith
  split_ifs with h
  · refine ⟨?_, ?_, ?_⟩
    · rw [abs_le]
      have hf1 := Int.floor_le (x * 32767)
      have hf2 := Int.lt_floor_add_one (x * 32767)
      constructor <;> push_cast at hf2 ⊢ <;> linarith
    · have h0 : (0 : ℤ) ≤ ⌊x * 32767⌋ := Int.floor_nonneg.mpr h
      omega
    · have hq : ((⌊x * 32767⌋ : ℤ) : ℚ) ≤ ((32767 : ℤ) : ℚ) := by
        push_cast
        linarith [Int.floor_le (x * 32767)]
      exact_mod_cast hq
  · push_neg at h
    refine ⟨?_, ?_, ?_⟩
    · rw [abs_le]
      have hc1 := Int.le_ceil (x * 32767)
      have hc2 := Int.ceil_lt_add_one (x * 32767)
      constructor <;> push_cast at hc1 hc2 ⊢ <;> linarith
    · have hq : ((-32768 : ℤ) : ℚ) ≤ ((⌈x * 32767⌉ : ℤ) : ℚ) := by
        push_cast
        linarith [Int.le_ceil (x * 32767)]
      exact_mod_cast hq
    · have h0 : ⌈x * 32767⌉ ≤ (0 : ℤ) := Int.ceil_le.mpr (by exact_mod_cast h.le)
      omega

theorem float_to_int16_eq_clip (x : ℚ) (h1 : -1 ≤ x) (h2 : x ≤ 1) :
    float_to_int16 x = spec_scale_clip x := by
  obtain ⟨_, hlo, hhi⟩ := float_to_int16_bounds x h1 h2
  unfold spec_scale_clip
  unfold float_to_int16 at hlo hhi ⊢
  omega

/-- The nested `audio_callback` in `start_recording`: on every hardware
block, if `not self.paused`, the block copy is appended to
`self._audio_buffer` (the optional real-time observer callback does not
touch recorder state and is not modelled).  Note the callback consults
only `paused`, never `recording`. -/
def audio_callback (st : RecorderState) (indata : Block) : RecorderState :=
  if st.paused then st
  else { st with audio_buffer := st.audio_buffer ++ [indata] }

/-- `AudioRecorder.start_recording`.  If already recording it logs a
warning and returns (state untouched).  Otherwise it opens the hardware
stream — `stream_ok` models whether `sd.InputStream(...)`/`stream.start()`
succeed; a hardware failure is re-raised to the caller — sets
`self.recording = True` and starts the stream. -/
def start_recording (st : RecorderState) (stream_ok : Bool) :
    Except RecError RecorderState :=
  if st.recording then .ok st
  else if stream_ok then .ok { st with recording := true, stream_open := true }
  else .error .streamError

/-- `AudioRecorder.stop_recording`: no-op unless recording; otherwise
clears `recording` and stops/closes/drops the stream. -/
def stop_recording (st : RecorderState) : RecorderState :=
  if st.recording then { st with recording := false, stream_open := false }
  else st

/-- `AudioRecorder.pause_recording`: sets the `paused` flag. -/
def pause_recording (st : RecorderState) : RecorderState :=
  { st with paused := true }

/-- `AudioRecorder.resume_recording`: clears the `paused` flag. -/
def resume_recording (st : RecorderState) : RecorderState :=
  { st with paused := false }

/-- `AudioRecorder.get_audio_data`: `None` when the buffer is empty, else
`np.concatenate(self._audio_buffer)` — the blocks flattened into one frame
sequence in buffer order.  The method reads state without assigning any
attribute, hence a pure function of the state. -/
def get_audio_data (st : RecorderState) : Option (List Frame) :=
  if st.audio_buffer.isEmpty then none
  else some st.audio_buffer.flatten

/-- What `wave.open` + `setnchannels`/`setsampwidth`/`setframerate` +
`writeframes` put into the output file: the header fields and the int16
frames.  The frame count the header reports is the number of frames
written. -/
structure WavFile where
  nchannels : Nat
  sampwidth : Nat
  framerate : Nat
  frames : List (List ℤ)
deriving DecidableEq

/-- `AudioRecorder.save_recording` (the filename/timestamp handling is
pure path string manipulation and is not modelled): raises `ValueError`
when the buffer is empty — before any file is created — else
concatenates the buffer, converts with `np.int16(audio_data * 32767)`
and writes a WAV file with the configured channel count, sample width 2
and the configured sample rate.  It reads state without assigning any
attribute. -/
def save_recording (st : RecorderState) : Except RecError WavFile :=
  if st.audio_buffer.isEmpty then .error .valueError
  else
    let audio_data := st.audio_buffer.flatten
    .ok { nchannels := st.config.channels
          sampwidth := 2
          framerate := st.config.sample_rate
          frames := audio_data.map (fun fr => fr.map float_to_int16) }

/-- `AudioRecorder.clear_buffer`. -/
def clear_buffer (st : RecorderState) : RecorderState :=
  { st with audio_buffer := [] }

/-- Events that reach a live recorder: a hardware callback delivering a
block, or the GUI toggling pause/resume. -/
inductive CaptureEvent
  | callbackBlock (b : Block)
  | pauseEv
  | resumeEv

/-- One event applied to the recorder state. -/
def stepEvent (st : RecorderState) : CaptureEvent → RecorderState
  | .callbackBlock b => audio_callback st b
  | .pauseEv => pause_recording st
  | .resumeEv => resume_recording st

/-- A whole event trace applied in order. -/
def runEvents (st : RecorderState) (es : List CaptureEvent) : RecorderState :=
  es.foldl stepEvent st

theorem runEvents_callbacks (st : RecorderState) (bs : List Block)
    (h : st.paused = false) :
    runEvents st (bs.map .callbackBlock) =
      { st with audio_buffer := st.audio_buffer ++ bs } := by
  induction bs generalizing st with
  | nil => simp [runEvents]
  | cons b rest ih =>
    simp only [List.map_cons, runEvents, List.foldl_cons]
    have hstep : stepEvent st (.callbackBlock b) =
        { st with audio_buffer := st.audio_buffer ++ [b] } := by
      simp [stepEvent, audio_callback, h]
    rw [hstep]
    have := ih { st with audio_buffer := st.audio_buffer ++ [b] } (by simp [h])
    simpa [runEvents, List.append_assoc] using this

/-! ## Transcription manager (`src/audio/transcription.py`)

`TranscriptionManager` holds an unbounded `queue.Queue()` of pending
jobs, an unbounded result queue, and an `_is_processing` flag guarding a
worker thread.  The job payload (audio array, per-job callback) and the
result payload (text/segments dict) are opaque to every claim, so jobs
are identifiers and results plain strings here.  The lazily loaded
Whisper model is touched by no claim and is left out of the state. -/

/-- A queued transcription job (payload opaque to the claims). -/
abbrev Job := Nat

/-- A transcription result (payload opaque to the claims). -/
abbrev TResult := String

/-- The `TranscriptionManager` attributes the claims consult:
`_is_processing`, `_transcription_queue`, `_result_queue`.  Both queues
are created as `queue.Queue()` with no `maxsize`, i.e. unbounded. -/
structure TransState where
  is_processing : Bool := false
  transcription_queue : List Job := []
  result_queue : List TResult := []
deriving DecidableEq

/-- The state `TranscriptionManager.__init__` establishes. -/
def initTrans : TransState := {}

/-- Error kinds the specification names for `submit`; the code never
raises either (`put` on an unbounded queue cannot raise `queue.Full`,
and no stopped check exists), which these constructors make statable. -/
inductive TransError
  | queueFull
  | managerStopped
deriving DecidableEq

/-- `TranscriptionManager.start_processing`: no-op when already
processing, else sets `_is_processing = True` and spawns the worker
thread (model loading, touched by no claim, omitted). -/
def start_processing (st : TransState) : TransState :=
  if st.is_processing then st else { st with is_processing := true }

/-- `TranscriptionManager.stop_processing`: clears `_is_processing` and
joins the worker thread. -/
def stop_processing (st : TransState) : TransState :=
  { st with is_processing := false }

/-- `TranscriptionManager.transcribe_audio`: unconditionally `put`s the
job on the unbounded queue — no capacity check, no timeout, no error
path — then, if not processing, calls `start_processing`, restarting
the worker.  The `Except` result channel records that no error is ever
produced. -/
def transcribe_audio (st : TransState) (j : Job) : Except TransError TransState :=
  let st1 := { st with transcription_queue := st.transcription_queue ++ [j] }
  .ok (if st1.is_processing then st1 else start_processing st1)

/-- The body of `TranscriptionManager._process_queue` applied to the
jobs the worker dequeues while `_is_processing` holds: for each job,
`_transcribe` either returns a result — pushed onto `_result_queue`
(the per-job callback, which does not touch manager state, is invoked
first) — or raises, in which case the exception is caught, logged, and
the loop simply continues: nothing is pushed for that job.  `infer j`
is `some r` when inference returns `r` and `none` when it raises. -/
def processQueue (infer : Job → Option TResult) (jobs : List Job)
    (st : TransState) : TransState :=
  jobs.foldl
    (fun s j =>
      match infer j with
      | some r => { s with result_queue := s.result_queue ++ [r] }
      | none => s)
    st

/-! ## Device registry (`src/utils/device_utils.py`) -/

/-- One entry of `sd.query_devices()`: the fields `_update_devices`
reads. -/
structure RawDevice where
  name : String
  max_input_channels : Nat
  default_samplerate : Nat
deriving DecidableEq

/-- The device layer as seen by `DeviceManager`: the current device
table, the default input device index (`sd.default.device[0]`, `-1`
when absent), and which (device name, rate) pairs
`sd.check_input_settings` accepts. -/
structure DeviceEnv where
  raw_devices : List RawDevice
  default_input : Int
  supported : String → Nat → Bool

/-- `DeviceManager._get_supported_rates`: of the standard rates
`[44100, 48000, 96000]`, those `sd.check_input_settings` accepts for
the device. -/
def get_supported_rates (env : DeviceEnv) (d : RawDevice) : List Nat :=
  [44100, 48000, 96000].filter (fun r => env.supported d.name r)

/-- Mirror of the `AudioDevice` dataclass. -/
structure AudioDevice where
  id : Nat
  name : String
  channels : Nat
  sample_rates : List Nat
  default_sample_rate : Nat
  is_default : Bool
deriving DecidableEq

/-- The `AudioDevice` record `_update_devices` builds for entry `d` at
enumeration index `idx`. -/
def make_device (env : DeviceEnv) (idx : Nat) (d : RawDevice) : AudioDevice :=
  { id := idx
    name := d.name
    channels := d.max_input_channels
    sample_rates := get_supported_rates env d
    default_sample_rate := d.default_samplerate
    is_default := decide ((idx : Int) = env.default_input) }

/-- The `for idx, device in enumerate(sd.query_devices())` loop of
`_update_devices`, carrying the running index: input-capable entries
(`max_input_channels > 0`) are appended, the rest skipped. -/
def update_devices_loop (env : DeviceEnv) : Nat → List RawDevice → List AudioDevice
  | _, [] => []
  | idx, d :: rest =>
    if 0 < d.max_input_channels then
      make_device env idx d :: update_devices_loop env (idx + 1) rest
    else
      update_devices_loop env (idx + 1) rest

/-- `DeviceManager._update_devices`: rebuilds `self.devices` from a
fresh `sd.query_devices()` enumeration. -/
def update_devices (env : DeviceEnv) : List AudioDevice :=
  update_devices_loop env 0 env.raw_devices

/-- The `DeviceManager` state: the cached `self.devices` list. -/
structure DMState where
  devices : List AudioDevice

/-- `DeviceManager.get_devices`: calls `_update_devices()` — discarding
whatever `self.devices` held — and returns the rebuilt list together
with the new state. -/
def get_devices (env : DeviceEnv) (st : DMState) : List AudioDevice × DMState :=
  let ds := update_devices env
  (ds, { devices := ds })

theorem update_devices_loop_mem (env : DeviceEnv) (i : Nat)
    (l : List RawDevice) (a : AudioDevice) :
    a ∈ update_devices_loop env i l ↔
      ∃ j d, l.get? j = some d ∧ 0 < d.max_input_channels ∧
        a = make_device env (i + j) d := by
  induction l generalizing i with
  | nil => simp [update_devices_loop]
  | cons d rest ih =>
    simp only [update_devices_loop]
    split_ifs with hd
    · simp only [List.mem_cons, ih]
      constructor
      · rintro (rfl | ⟨j, d0, hget, hpos, rfl⟩)
        · exact ⟨0, d, rfl, hd, by simp⟩
        · exact ⟨j + 1, d0, by simpa using hget, hpos, by ring_nf⟩
      · rintro ⟨j, d0, hget, hpos, rfl⟩
        cases j with
        | zero =>
          left
          simp only [List.get?_cons_zero, Option.some.injEq] at hget
          subst hget
          simp
        | succ j =>
          right
          refine ⟨j, d0, by simpa using hget, hpos, by ring_nf⟩
    · rw [ih]
      constructor
      · rintro ⟨j, d0, hget, hpos, rfl⟩
        exact ⟨j + 1, d0, by simpa using hget, hpos, by ring_nf⟩
      · rintro ⟨j, d0, hget, hpos, rfl⟩
        cases j with
        | zero =>
          simp only [List.get?_cons_zero, Option.some.injEq] at hget
          subst hget
          exact absurd hpos hd
        | succ j =>
          refine ⟨j, d0, by simpa using hget, hpos, by ring_nf⟩

/-! ## Claim theorems -/

/-- C1: for every nonempty buffered recording whose float samples lie in
`[-1, 1]`, `save_recording` produces a WAV file whose header reports the
configured channel count, sample width 2 and the configured frame rate,
whose frame count equals the number of buffered frames, and whose int16
samples are the truncated scaled floats — which on this input range
coincide with scaling-with-clipping and are each within 1 LSB of the
exact scaled value `x * 32767` (e.g. `0.5 ↦ 16383`), inside
`[-32768, 32767]`. -/
theorem save_recording_wav_correct (st : RecorderState)
    (hne : st.audio_buffer ≠ [])
    (hrange : ∀ b ∈ st.audio_buffer, ∀ fr ∈ b, ∀ x ∈ fr, -1 ≤ x ∧ x ≤ 1) :
    ∃ wav, save_recording st = .ok wav ∧
      wav.nchannels = st.config.channels ∧
      wav.sampwidth = 2 ∧
      wav.framerate = st.config.sample_rate ∧
      wav.frames.length = st.audio_buffer.flatten.length ∧
      wav.frames = st.audio_buffer.flatten.map (fun fr => fr.map float_to_int16) ∧
      ∀ fr ∈ st.audio_buffer.flatten, ∀ x ∈ fr,
        float_to_int16 x = spec_scale_clip x ∧
        |((float_to_int16 x : ℤ) : ℚ) - x * 32767| ≤ 1 ∧
        -32768 ≤ float_to_int16 x ∧ float_to_int16 x ≤ 32767 := by
  have hie : st.audio_buffer.isEmpty = false := by
    simpa [List.isEmpty_iff] using hne
  unfold save_recording
  rw [hie]
  simp only [Bool.false_eq_true, if_false]
  refine ⟨_, rfl, rfl, rfl, rfl, by rw [List.length_map], rfl, ?_⟩
  intro fr hfr x hx
  obtain ⟨b, hb, hfrb⟩ := List.mem_flatten.mp hfr
  obtain ⟨hx1, hx2⟩ := hrange b hb fr hfrb x hx
  obtain ⟨habs, hlo, hhi⟩ := float_to_int16_bounds x hx1 hx2
  exact ⟨float_to_int16_eq_clip x hx1 hx2, habs, hlo, hhi⟩

/-- A concrete recorded buffer for the C1 witness: five mono frames. -/
def c1_state : RecorderState :=
  { audio_buffer := [[[(1 : ℚ)/2], [-1], [1], [0]], [[(1 : ℚ)/4]]] }

theorem float_to_int16_eval_half : float_to_int16 ((1 : ℚ)/2) = 16383 := by
  unfold float_to_int16 truncToInt
  rw [if_pos (by norm_num)]
  exact Int.floor_eq_iff.mpr (by norm_num)

theorem float_to_int16_eval_negone : float_to_int16 (-1) = -32767 := by
  unfold float_to_int16 truncToInt
  rw [if_neg (by norm_num)]
  exact Int.ceil_eq_iff.mpr (by norm_num)

theorem float_to_int16_eval_one : float_to_int16 1 = 32767 := by
  unfold float_to_int16 truncToInt
  rw [if_pos (by norm_num)]
  exact Int.floor_eq_iff.mpr (by norm_num)

theorem float_to_int16_eval_zero : float_to_int16 0 = 0 := by
  unfold float_to_int16 truncToInt
  rw [if_pos (by norm_num)]
  exact Int.floor_eq_iff.mpr (by norm_num)

theorem float_to_int16_eval_quarter : float_to_int16 ((1 : ℚ)/4) = 8191 := by
  unfold float_to_int16 truncToInt
  rw [if_pos (by norm_num)]
  exact Int.floor_eq_iff.mpr (by norm_num)

/-- C1 witness: on the concrete buffer, the produced file has the
default header (mono, 2 bytes, 44100 Hz) and the truncated scaled
samples, in particular `0.5 ↦ 16383`. -/
theorem save_recording_wav_correct_witness :
    ∃ wav, save_recording c1_state = .ok wav ∧
      wav.nchannels = 1 ∧ wav.sampwidth = 2 ∧ wav.framerate = 44100 ∧
      wav.frames = [[16383], [-32767], [32767], [0], [8191]] := by
  obtain ⟨wav, hok, hch, hw, hr, _, hfr, _⟩ :=
    save_recording_wav_correct c1_state (by simp [c1_state])
      (by norm_num [c1_state, List.forall_mem_cons])
  refine ⟨wav, hok, hch, hw, hr, ?_⟩
  rw [hfr]
  simp [c1_state, float_to_int16_eval_half, float_to_int16_eval_negone,
    float_to_int16_eval_one, float_to_int16_eval_zero,
    float_to_int16_eval_quarter]
  exact ⟨by simpa using float_to_int16_eval_half,
    by simpa using float_to_int16_eval_quarter⟩

/-- C2 counterexample: the recorder state records nothing about an
interval dropped while paused — a blocked-out block leaves the state
identical to a session in which it never arrived, and blocks carry no
sequence numbers — so the gap is not detectable, contrary to the claim
that the dropped interval is recorded.  Concretely, the trace
pause / block / resume / block and the trace pause / resume / block end
in equal states. -/
theorem pause_gap_leaves_no_record :
    audio_callback (pause_recording initRecorder) [[(1 : ℚ)]] =
      pause_recording initRecorder ∧
    runEvents initRecorder
        [.pauseEv, .callbackBlock [[(1 : ℚ)]], .resumeEv,
          .callbackBlock [[(0 : ℚ)]]] =
      runEvents initRecorder
        [.pauseEv, .resumeEv, .callbackBlock [[(0 : ℚ)]]] := by
  constructor <;> rfl

/-- C2 amended: while the `paused` flag is set the callback discards the
incoming block, leaving the state (in particular the buffer) unchanged,
and while not paused it appends the block at the end of the buffer in
arrival order; but the dropped interval is not recorded anywhere —
blocks carry no sequence numbers — so a Pause/Resume gap is not
detectable from the recorded data. -/
theorem audio_callback_paused_discards (st : RecorderState) (b : Block) :
    (st.paused = true → audio_callback st b = st) ∧
    (st.paused = false →
      audio_callback st b = { st with audio_buffer := st.audio_buffer ++ [b] }) := by
  constructor <;> intro h <;> simp [audio_callback, h]

/-- C2 amended witness: a paused recorder discards a concrete block. -/
theorem audio_callback_paused_discards_witness :
    audio_callback (pause_recording initRecorder) [[(2 : ℚ)]] =
      pause_recording initRecorder :=
  (audio_callback_paused_discards (pause_recording initRecorder) [[(2 : ℚ)]]).1 rfl

/-- C8: after any nonempty sequence of callback-delivered blocks,
`get_audio_data` returns exactly those blocks concatenated in append
order — no duplicate, no omission, every block appended before the call
present. -/
theorem get_audio_data_snapshot (bs : List Block) (h : bs ≠ []) :
    get_audio_data (runEvents initRecorder (bs.map .callbackBlock)) =
      some bs.flatten := by
  rw [runEvents_callbacks initRecorder bs rfl]
  simp [get_audio_data, initRecorder, h]

/-- C8 witness: two appended blocks come back flattened in order. -/
theorem get_audio_data_snapshot_witness :
    get_audio_data
        (runEvents initRecorder
          ([[[(1 : ℚ)], [2]], [[3]]].map .callbackBlock)) =
      some [[(1 : ℚ)], [2], [3]] := by
  simpa using get_audio_data_snapshot [[[(1 : ℚ)], [2]], [[3]]] (by decide)

/-- C10: with an empty audio buffer, `get_audio_data` returns `None`
(not an empty array, not an error) and `save_recording` raises
`ValueError` before any file is created; both methods only read the
recorder state, so it is unchanged. -/
theorem empty_buffer_behaviour (st : RecorderState)
    (h : st.audio_buffer = []) :
    get_audio_data st = none ∧ save_recording st = .error .valueError := by
  simp [get_audio_data, save_recording, h]

/-- C10 witness: the freshly initialised recorder. -/
theorem empty_buffer_behaviour_witness :
    get_audio_data initRecorder = none ∧
      save_recording initRecorder = .error .valueError :=
  empty_buffer_behaviour initRecorder rfl

/-- A recorder that is currently recording, for the C6 counterexample. -/
def recordingState : RecorderState := { recording := true, stream_open := true }

/-- C6 counterexample: calling `start_recording` while already recording
does not fail with `AlreadyRecording` — it logs a warning and returns
normally with the state untouched. -/
theorem start_while_recording_is_silent_noop :
    start_recording recordingState true = .ok recordingState ∧
    start_recording recordingState true ≠ .error .alreadyRecording := by
  refine ⟨rfl, ?_⟩
  intro h
  simp [start_recording, recordingState] at h

/-- C6 amended: `start_recording` while Recording or Paused is a silent
no-op (a warning is logged, no error is surfaced, the state is
unchanged); from Idle, with the hardware stream opening successfully, it
transitions the state to Recording. -/
theorem start_recording_transitions (st : RecorderState) :
    (st.recording = true → start_recording st true = .ok st) ∧
    (st.recording = false →
      start_recording st true =
        .ok { st with recording := true, stream_open := true }) := by
  constructor <;> intro h <;> simp [start_recording, h]

/-- C6 amended witness: starting from the initial (idle) state yields
the recording state. -/
theorem start_recording_transitions_witness :
    start_recording initRecorder true =
      .ok { initRecorder with recording := true, stream_open := true } :=
  (start_recording_transitions initRecorder).2 rfl

/-- A manager with five queued jobs, for the C3 counterexample. -/
def busyTrans : TransState :=
  { is_processing := true, transcription_queue := [0, 1, 2, 3, 4] }

/-- C3 counterexample: the work queue is `queue.Queue()` with no
`maxsize`, so it is never at capacity; submitting to a manager that
already holds queued jobs enqueues unconditionally and never fails with
`QueueFull` (no timeout exists either). -/
theorem submit_on_loaded_queue_never_queueFull :
    transcribe_audio busyTrans 5 =
      .ok { busyTrans with transcription_queue := [0, 1, 2, 3, 4, 5] } ∧
    transcribe_audio busyTrans 5 ≠ .error .queueFull := by
  refine ⟨rfl, ?_⟩
  intro h
  simp [transcribe_audio, busyTrans] at h

/-- C3 amended: the work queue is unbounded; `transcribe_audio` always
succeeds, appending the job at the tail of the queue (FIFO) and leaving
the worker running, with no capacity check, no blocking timeout and no
`QueueFull` failure. -/
theorem transcribe_audio_always_enqueues (st : TransState) (j : Job) :
    ∃ st', transcribe_audio st j = .ok st' ∧
      st'.transcription_queue = st.transcription_queue ++ [j] ∧
      st'.is_processing = true := by
  cases hp : st.is_processing <;>
    exact ⟨_, rfl, by simp [transcribe_audio, start_processing, hp],
      by simp [transcribe_audio, start_processing, hp]⟩

/-- A manager whose worker is running, for the C4 counterexample. -/
def procTrans : TransState := { is_processing := true }

/-- C4 counterexample: after `stop_processing`, a subsequent
`transcribe_audio` call does not fail with `ManagerStopped` — it
enqueues the job and restarts the worker
(`_is_processing` becomes true again). -/
theorem submit_after_shutdown_restarts :
    transcribe_audio (stop_processing procTrans) 7 =
      .ok { is_processing := true, transcription_queue := [7],
            result_queue := [] } ∧
    transcribe_audio (stop_processing procTrans) 7 ≠ .error .managerStopped := by
  refine ⟨rfl, ?_⟩
  intro h
  simp [transcribe_audio, stop_processing, start_processing, procTrans] at h

/-- C4 amended: after `stop_processing`, every `transcribe_audio` call
succeeds: the job is appended to the queue and the worker is restarted
(`_is_processing` set back to true); no `ManagerStopped` error exists in
the code. -/
theorem transcribe_after_stop_enqueues_and_restarts (st : TransState) (j : Job) :
    transcribe_audio (stop_processing st) j =
      .ok { st with is_processing := true,
                    transcription_queue := st.transcription_queue ++ [j] } := by
  simp [transcribe_audio, stop_processing, start_processing]

/-- C5 counterexample: a job whose inference raises is not reported as a
`TranscriptionFailed` result — it is not reported at all: the exception
is caught and logged and nothing reaches the result queue, which stays
empty after the failing job. -/
theorem failed_job_reported_nowhere :
    (processQueue (fun j => if j = 0 then none else some "ok") [0]
        initTrans).result_queue = [] := by
  rfl

/-- C5 amended: a job whose inference raises produces no result entry —
the failure is only logged — but the worker continues with the next
job, so a failing job never prevents a subsequently submitted job from
completing: its result is still delivered. -/
theorem failed_job_isolated (infer : Job → Option TResult) (st : TransState)
    (j1 j2 : Job) (r2 : TResult)
    (h1 : infer j1 = none) (h2 : infer j2 = some r2) :
    (processQueue infer [j1, j2] st).result_queue =
      st.result_queue ++ [r2] := by
  simp [processQueue, h1, h2]

/-- C5 amended witness: job 0 fails, job 1 succeeds; only the result of
job 1 is delivered. -/
theorem failed_job_isolated_witness :
    (processQueue (fun j => if j = 0 then none else some "hello") [0, 1]
        initTrans).result_queue = ["hello"] := by
  simpa using
    failed_job_isolated (fun j => if j = 0 then none else some "hello")
      initTrans 0 1 "hello" rfl rfl

/-- C9: `get_devices` recomputes the device list from the device layer
on every call — the result is independent of the cached state — and the
list holds exactly one entry per enumerated raw device with at least one
input channel, built by `make_device`; in an environment with zero
input-capable devices it returns the empty list rather than failing. -/
theorem get_devices_fresh_and_filtered (env : DeviceEnv) (st : DMState) :
    (get_devices env st).1 = update_devices env ∧
    (∀ st', (get_devices env st).1 = (get_devices env st').1) ∧
    (∀ a, a ∈ (get_devices env st).1 ↔
      ∃ j d, env.raw_devices.get? j = some d ∧ 0 < d.max_input_channels ∧
        a = make_device env j d) ∧
    ((∀ d ∈ env.raw_devices, d.max_input_channels = 0) →
      (get_devices env st).1 = []) := by
  refine ⟨rfl, fun _ => rfl, ?_, ?_⟩
  · intro a
    have hmem := update_devices_loop_mem env 0 env.raw_devices a
    simpa [get_devices, update_devices] using hmem
  · intro h
    rw [List.eq_nil_iff_forall_not_mem]
    intro a ha
    have hmem := update_devices_loop_mem env 0 env.raw_devices a
    rw [show (get_devices env st).1 = update_devices_loop env 0 env.raw_devices
      from rfl] at ha
    obtain ⟨j, d, hget, hpos, _⟩ := hmem.mp ha
    have hd : d ∈ env.raw_devices := List.get?_mem hget
    have hzero := h d hd
    omega

/-- An environment whose only device has no input channels, for the C9
witness. -/
def noInputEnv : DeviceEnv :=
  { raw_devices := [{ name := "out", max_input_channels := 0,
                      default_samplerate := 44100 }]
    default_input := -1
    supported := fun _ _ => true }

/-- C9 witness: with zero input-capable devices, `get_devices` returns
the empty list. -/
theorem get_devices_fresh_and_filtered_witness :
    (get_devices noInputEnv ⟨[]⟩).1 = [] :=
  (get_devices_fresh_and_filtered noInputEnv ⟨[]⟩).2.2.2 (by decide)

end AudioTranscriber
